import Mathlib

/-!
Shallow embedding of the online-network controller of Little Navmap
(`OnlinedataController`, file `src/online/onlinedatacontroller.cpp`).

Conventions of the embedding:

* `QString` is `String`.  Registration keys are compared and ordered with a
  code-point order `strLt` mirroring `QString::operator<`.
* `QHash<QString, T>` is modelled as an association list kept sorted by key
  (`StrMap`).  A `QHash` is an unordered container whose abstract state is a
  finite map; keeping the representation canonical makes `keys()` a function
  of the map's contents.  `QHash::insert` replaces the value of an existing
  key; `QHash::value` returns a default-constructed value for a missing key.
* `QDateTime` is `Option Int` (seconds; `none` is an invalid/null datetime).
  Qt orders an invalid datetime before every valid one.
* `atools::geo::Pos` carries a validity flag; a default-constructed `Pos` is
  invalid.  The great-circle distance `Pos::distanceMeterTo` is a floating
  point computation external to this controller; it is modelled as an
  explicit function parameter `dist : Pos → Pos → Rat` of the operations
  that consume distances, so that the comparison logic of the controller is
  captured exactly while the geodesic formula stays abstract.
* Calls into the parser/store collaborator (`OnlinedataManager`) are inputs:
  a `ManagerView` records the answers the manager gives during one slot
  invocation.  Qt signal emissions, deferred single-shot timers and
  downloader commands are recorded in an explicit `Effect` list.
-/

namespace Onlinedata

/-- Code-point comparison of character lists; the order underlying
`QString::operator<` used for the canonical key order of `StrMap`. -/
def charListLt : List Char → List Char → Bool
  | [], [] => false
  | [], _ :: _ => true
  | _ :: _, [] => false
  | a :: as, b :: bs =>
    if a.toNat < b.toNat then true
    else if b.toNat < a.toNat then false
    else charListLt as bs

/-- Strict code-point order on strings (`QString::operator<`). -/
def strLt (a b : String) : Bool :=
  charListLt a.data b.data

/-- Model of `QHash<QString, β>`: association list kept sorted by `strLt`. -/
abbrev StrMap (β : Type) : Type := List (String × β)

namespace StrMap

/-- The empty hash. -/
def empty {β : Type} : StrMap β := []

/-- Lookup: first (and only) entry with the given key. -/
def find? {β : Type} : StrMap β → String → Option β
  | [], _ => none
  | (k', v) :: t, k => if k = k' then some v else find? t k

/-- `QHash::contains`. -/
def contains {β : Type} (m : StrMap β) (k : String) : Bool :=
  (find? m k).isSome

/-- `QHash::value(key)`: the stored value, or the supplied
default-constructed value when the key is missing. -/
def valueD {β : Type} (m : StrMap β) (k : String) (d : β) : β :=
  (find? m k).getD d

/-- `QHash::insert`: replace the value of an existing key, otherwise add the
entry; the canonical representation keeps keys sorted. -/
def insert {β : Type} : StrMap β → String → β → StrMap β
  | [], k, v => [(k, v)]
  | (k', v') :: t, k, v =>
    if strLt k k' then (k, v) :: (k', v') :: t
    else if k = k' then (k, v) :: t
    else (k', v') :: insert t k v

/-- `QHash::remove`. -/
def erase {β : Type} (m : StrMap β) (k : String) : StrMap β :=
  m.filter (fun e => !(decide (e.1 = k)))

/-- `QHash::keys`. -/
def keys {β : Type} (m : StrMap β) : List String :=
  m.map Prod.fst

/-- Canonical-representation invariant: the key list is strictly sorted. -/
def SortedKeys {β : Type} (m : StrMap β) : Prop :=
  List.Pairwise (fun a b => strLt a b = true) (keys m)

end StrMap

/-- `atools::geo::Pos`: coordinates plus a validity flag.  A
default-constructed position is invalid. -/
structure Pos where
  valid : Bool
  lonx : Rat
  laty : Rat
  deriving DecidableEq, Repr

/-- A default-constructed (invalid) `atools::geo::Pos`. -/
def Pos.invalid : Pos := ⟨false, 0, 0⟩

/-- `Pos::isValid`. -/
def Pos.isValid (p : Pos) : Bool := p.valid

/-- `atools::geo::nmToMeter` on integers: one nautical mile is 1852 m. -/
def nmToMeter (nm : Int) : Int := nm * 1852

/-- Minimum age of the servers file before it is downloaded again. -/
def MIN_SERVER_DOWNLOAD_INTERVAL_MIN : Int := 15

/-- Minimum age of the transceivers file before it is downloaded again. -/
def MIN_TRANSCEIVER_DOWNLOAD_INTERVAL_MIN : Int := 5

/-- Duplicates with the same registration closer than this are removed
(non-debug build value). -/
def MIN_DISTANCE_DUPLICATE_M : Int := nmToMeter 30

/-- Minimum reload time for whazzup files (JSON or txt). -/
def MIN_RELOAD_TIME_SECONDS : Int := 15

/-- `QDateTime` as seconds since epoch; `none` is a null/invalid datetime. -/
abbrev QDateTime : Type := Option Int

/-- `QDateTime::operator<`: an invalid datetime sorts before every valid
one; two invalid datetimes are equal. -/
def qdtLt : QDateTime → QDateTime → Bool
  | none, none => false
  | none, some _ => true
  | some _, none => false
  | some a, some b => decide (a < b)

/-- `QDateTime::isValid`. -/
def qdtIsValid (t : QDateTime) : Bool := t.isSome

/-- `OnlinedataController::State`. -/
inductive State
  | NONE
  | DOWNLOADING_STATUS
  | DOWNLOADING_TRANSCEIVERS
  | DOWNLOADING_WHAZZUP
  | DOWNLOADING_WHAZZUP_SERVERS
  deriving DecidableEq, Repr

/-- `opts::OnlineFormat` (configured format). -/
inductive OnlineFormat
  | ONLINE_FORMAT_VATSIM
  | ONLINE_FORMAT_VATSIM_JSON
  | ONLINE_FORMAT_IVAO
  | ONLINE_FORMAT_IVAO_JSON
  deriving DecidableEq, Repr

/-- `atools::fs::online::Format`. -/
inductive Format
  | UNKNOWN
  | VATSIM
  | VATSIM_JSON3
  | IVAO
  | IVAO_JSON2
  deriving DecidableEq, Repr

/-- `convertFormat` from the controller source. -/
def convertFormat : OnlineFormat → Format
  | .ONLINE_FORMAT_VATSIM => .VATSIM
  | .ONLINE_FORMAT_VATSIM_JSON => .VATSIM_JSON3
  | .ONLINE_FORMAT_IVAO => .IVAO
  | .ONLINE_FORMAT_IVAO_JSON => .IVAO_JSON2

/-- `opts::OnlineNetwork`. -/
inductive OnlineNetwork
  | ONLINE_NONE
  | ONLINE_VATSIM
  | ONLINE_IVAO
  | ONLINE_PILOTEDGE
  | ONLINE_CUSTOM_STATUS
  | ONLINE_CUSTOM
  deriving DecidableEq, Repr

/-- Configuration read from `OptionData` and `Settings` during one slot
invocation. `onlineReloadSeconds` is `OptionData::getOnlineReload` for the
active network. -/
structure Config where
  onlineNetwork : OnlineNetwork
  onlineFormat : OnlineFormat
  onlineStatusUrl : String
  onlineWhazzupUrl : String
  onlineTransceiverUrl : String
  onlineVatsimTransceiverReload : Int
  onlineReloadSeconds : Int
  noUserAgent : Bool
  deriving DecidableEq, Repr

/-- Answers given by the `OnlinedataManager` collaborator during one slot
invocation (after any `readFrom...` call made there). -/
structure ManagerView where
  whazzupUrlFromStatus : String
  whazzupGzipped : Bool
  whazzupJson : Bool
  messageFromStatus : String
  whazzupVoiceUrlFromStatus : String
  reloadMinutesFromWhazzup : Int
  readFromWhazzupAccepted : Bool
  clientCallsignAndPosMap : StrMap Pos
  deriving DecidableEq, Repr

/-- `atools::fs::sc::SimConnectAircraft`, restricted to the fields the
controller reads: registration, position and the online-shadow flag. -/
structure SimAircraft where
  registration : String
  pos : Pos
  onlineShadow : Bool
  deriving DecidableEq, Repr

/-- Mutable state of `OnlinedataController`, together with the state of its
owned `QTimer` and the observable state of its `HttpDownloader`. -/
structure Ctrl where
  currentState : State
  whazzupUrlFromStatus : String
  lastUpdateTime : QDateTime
  lastUpdateTimeTransceivers : QDateTime
  lastServerDownload : QDateTime
  clientCallsignAndPosMap : StrMap Pos
  aircraftCache : List SimAircraft
  simulatorAiRegistrations : StrMap Pos
  downloadTimerRunning : Bool
  downloadTimerIntervalMs : Int
  downloaderUrl : String
  downloaderDownloading : Bool
  deriving DecidableEq, Repr

/-- Externally visible actions of one slot invocation, in program order. -/
inductive Effect
  | cancelDownload
  | setUserAgent
  | startDownload
  | showStatusMessageDialog
  | onlineServersUpdated
  | onlineClientAndAtcUpdated
  | onlineNetworkChanged
  | connectionStatusMessage (title text : String)
  | scheduleRetryMs (delayMs : Int)
  deriving DecidableEq, Repr

/-- `OnlinedataController::getNetworkTranslated`. -/
def getNetworkTranslated (cfg : Config) : String :=
  match cfg.onlineNetwork with
  | .ONLINE_NONE => ""
  | .ONLINE_VATSIM => "VATSIM"
  | .ONLINE_IVAO => "IVAO"
  | .ONLINE_PILOTEDGE => "PilotEdge"
  | .ONLINE_CUSTOM_STATUS => "Custom Network"
  | .ONLINE_CUSTOM => "Custom Network"

/-- `OnlinedataController::statusBarMessage`. -/
def statusBarMessage (cfg : Config) : Effect :=
  let net := getNetworkTranslated cfg
  if net ≠ "" then .connectionStatusMessage "" ("Connected to " ++ net ++ ".")
  else .connectionStatusMessage "" ""

/-- `OnlinedataController::stopAllProcesses`: cancel the download, stop the
re-poll timer, reset state to `NONE` and clear the simulator registrations;
`clientCallsignAndPosMap` is deliberately not cleared. -/
def stopAllProcesses (s : Ctrl) : Ctrl × List Effect :=
  ({ s with downloaderDownloading := false,
            downloadTimerRunning := false,
            currentState := .NONE,
            simulatorAiRegistrations := StrMap.empty },
   [Effect.cancelDownload])

/-- Interval selection of `OnlinedataController::startDownloadTimer`, in
seconds. -/
def startDownloadTimerSeconds (cfg : Config) (mgr : ManagerView) : Int :=
  let intervalSeconds := cfg.onlineReloadSeconds
  if cfg.onlineNetwork = .ONLINE_CUSTOM ∨ cfg.onlineNetwork = .ONLINE_CUSTOM_STATUS then
    -- Use options for custom network - ignore reload in whazzup.txt
    intervalSeconds
  else if intervalSeconds = -1 then
    -- Use time from whazzup.txt - mode auto
    max (mgr.reloadMinutesFromWhazzup * 60) 60
  else
    max intervalSeconds MIN_RELOAD_TIME_SECONDS

/-- `OnlinedataController::startDownloadTimer`: stop, set the interval and
restart the re-poll timer. -/
def startDownloadTimer (cfg : Config) (mgr : ManagerView) (s : Ctrl) : Ctrl :=
  { s with downloadTimerRunning := true,
           downloadTimerIntervalMs := startDownloadTimerSeconds cfg mgr * 1000 }

/-- Text of the status message produced by
`OnlinedataController::downloadFailed` (the `%1`/`%2` placeholders of the
source are substituted by `QString::arg`). -/
def failedMessageText (url error : String) : String :=
  "Download from\n\"" ++ url ++ "\"\nfailed. Reason:\n" ++ error ++
    "\nRetrying again in three minutes."

/-- `OnlinedataController::downloadFailed`. -/
def downloadFailed (error : String) (errorCode : Int) (url : String) (s : Ctrl) :
    Ctrl × List Effect :=
  let r := stopAllProcesses s
  (r.1, r.2 ++
    [Effect.connectionStatusMessage "Online Network Failed" (failedMessageText url error),
     Effect.scheduleRetryMs (180 * 1000)])

/-- `OnlinedataController::startDownloadInternal`. `now` is
`QDateTime::currentDateTime()`; `mgr` gives the manager's answers
(`getWhazzupUrlFromStatus`). -/
def startDownloadInternal (cfg : Config) (mgr : ManagerView) (now : Int) (s : Ctrl) :
    Ctrl × List Effect :=
  if s.downloaderDownloading = true ∨ s.currentState ≠ State.NONE then
    -- re-entrancy guard: warning logged, nothing else happens
    (s, [])
  else
    let r := stopAllProcesses s
    let s := r.1
    let effs := r.2
    if cfg.onlineNetwork = OnlineNetwork.ONLINE_NONE then
      -- No online functionality set in options
      (s, effs)
    else
      let s := { s with whazzupUrlFromStatus := mgr.whazzupUrlFromStatus }
      if s.currentState = State.NONE then
        let transceiverReload :=
          if cfg.onlineVatsimTransceiverReload = -1 then
            MIN_TRANSCEIVER_DOWNLOAD_INTERVAL_MIN * 60
          else cfg.onlineVatsimTransceiverReload
        if convertFormat cfg.onlineFormat = Format.VATSIM_JSON3 ∧
           qdtIsValid s.lastUpdateTimeTransceivers = true ∧
           qdtLt s.lastUpdateTimeTransceivers (some (now - transceiverReload)) = true then
          -- Download transceivers since data is too old
          let url := cfg.onlineTransceiverUrl
          let s := { s with currentState := State.DOWNLOADING_TRANSCEIVERS }
          if url ≠ "" then
            ({ s with downloaderUrl := url }, effs ++ [Effect.startDownload])
          else (s, effs)
        else
          let effs := effs ++ (if cfg.noUserAgent then [] else [Effect.setUserAgent])
          if s.whazzupUrlFromStatus = "" ∧ cfg.onlineStatusUrl ≠ "" then
            -- Start status.txt and whazzup.txt download cycle
            let s := { s with currentState := State.DOWNLOADING_STATUS }
            ({ s with downloaderUrl := cfg.onlineStatusUrl }, effs ++ [Effect.startDownload])
          else if cfg.onlineWhazzupUrl ≠ "" ∨ s.whazzupUrlFromStatus ≠ "" then
            -- Start whazzup.txt and servers.txt download cycle
            let url := if s.whazzupUrlFromStatus = "" then cfg.onlineWhazzupUrl
                       else s.whazzupUrlFromStatus
            let s := { s with currentState := State.DOWNLOADING_WHAZZUP }
            if url ≠ "" then
              ({ s with downloaderUrl := url }, effs ++ [Effect.startDownload])
            else (s, effs)
          else (s, effs)
      else (s, effs)

/-- `OnlinedataController::downloadFinished`.  The payload bytes are
consumed by the manager; `mgr` is the manager's post-read view. -/
def downloadFinished (cfg : Config) (mgr : ManagerView) (now : Int) (s : Ctrl) :
    Ctrl × List Effect :=
  if s.currentState = State.DOWNLOADING_STATUS then
    -- status.txt downloaded; readFromStatus ran, URL taken from status file
    let s := { s with whazzupUrlFromStatus := mgr.whazzupUrlFromStatus }
    let effs := if mgr.messageFromStatus ≠ "" then [Effect.showStatusMessageDialog] else []
    if mgr.whazzupJson then
      -- Next in chain is transceivers JSON
      ({ s with currentState := State.DOWNLOADING_TRANSCEIVERS,
                downloaderUrl := cfg.onlineTransceiverUrl },
       effs ++ [Effect.startDownload])
    else if s.whazzupUrlFromStatus ≠ "" then
      -- Next in chain is whazzup.txt
      ({ s with currentState := State.DOWNLOADING_WHAZZUP,
                downloaderUrl := s.whazzupUrlFromStatus },
       effs ++ [Effect.startDownload])
    else
      -- Done after downloading status.txt - start timer for next session
      let s := startDownloadTimer cfg mgr s
      ({ s with currentState := State.NONE, lastUpdateTime := some now }, effs)
  else if s.currentState = State.DOWNLOADING_TRANSCEIVERS then
    -- transceivers.json downloaded; next in chain is the whazzup JSON
    ({ s with currentState := State.DOWNLOADING_WHAZZUP,
              lastUpdateTimeTransceivers := some now,
              downloaderUrl := s.whazzupUrlFromStatus },
     [Effect.startDownload])
  else if s.currentState = State.DOWNLOADING_WHAZZUP then
    -- whazzup.txt or JSON downloaded
    let vatsimJson := convertFormat cfg.onlineFormat = Format.VATSIM_JSON3
    let ivaoJson := convertFormat cfg.onlineFormat = Format.IVAO_JSON2
    if mgr.readFromWhazzupAccepted then
      let s := { s with clientCallsignAndPosMap := mgr.clientCallsignAndPosMap }
      if ¬vatsimJson ∧ ¬ivaoJson ∧ mgr.whazzupVoiceUrlFromStatus ≠ "" ∧
         qdtLt s.lastServerDownload
           (some (now - MIN_SERVER_DOWNLOAD_INTERVAL_MIN * 60)) = true then
        -- Next in chain is server file
        ({ s with currentState := State.DOWNLOADING_WHAZZUP_SERVERS,
                  downloaderUrl := mgr.whazzupVoiceUrlFromStatus },
         [Effect.startDownload])
      else
        -- Done after downloading whazzup.txt - start timer for next session
        let s := startDownloadTimer cfg mgr s
        ({ s with currentState := State.NONE, lastUpdateTime := some now,
                  aircraftCache := [], simulatorAiRegistrations := StrMap.empty },
         [Effect.onlineServersUpdated, Effect.onlineClientAndAtcUpdated,
          statusBarMessage cfg])
    else
      -- whazzup.txt is not recent; done after old update - try again later
      let s := startDownloadTimer cfg mgr s
      ({ s with currentState := State.NONE, lastUpdateTime := some now }, [])
  else if s.currentState = State.DOWNLOADING_WHAZZUP_SERVERS then
    -- server file downloaded and ingested
    let s := { s with lastServerDownload := some now }
    let s := startDownloadTimer cfg mgr s
    ({ s with currentState := State.NONE, lastUpdateTime := some now,
              aircraftCache := [], simulatorAiRegistrations := StrMap.empty },
     [Effect.onlineClientAndAtcUpdated, Effect.onlineServersUpdated,
      statusBarMessage cfg])
  else
    (s, [])

/-- `OnlinedataController::optionsChanged` (also reached through
`userAirspacesUpdated`).  `manager->resetForNewOptions` clears the URLs the
manager discovered from a status document. -/
def optionsChanged (cfg : Config) (mgr : ManagerView) (now : Int) (s : Ctrl) :
    Ctrl × List Effect :=
  let mgr := { mgr with whazzupUrlFromStatus := "", whazzupVoiceUrlFromStatus := "" }
  let r := stopAllProcesses s
  let s := { r.1 with aircraftCache := [],
                      simulatorAiRegistrations := StrMap.empty,
                      clientCallsignAndPosMap := StrMap.empty }
  let e2 := [Effect.onlineClientAndAtcUpdated, Effect.onlineServersUpdated,
             Effect.onlineNetworkChanged, statusBarMessage cfg]
  let s := { s with lastUpdateTime := some 0, lastServerDownload := some 0 }
  let r2 := startDownloadInternal cfg mgr now s
  (r2.1, r.2 ++ e2 ++ r2.2)

/-- Asynchronous resumption points of the controller: the explicit start /
timer timeout / retry single-shot all invoke `startDownloadInternal`; the
downloader delivers success or failure; option changes hard-reset. -/
inductive Event
  | startProcessing
  | finished
  | failed (error : String) (errorCode : Int) (url : String)
  | optsChanged
  deriving DecidableEq, Repr

/-- One slot invocation of the controller. -/
def step (cfg : Config) (mgr : ManagerView) (now : Int) : Event → Ctrl → Ctrl × List Effect
  | .startProcessing, s => startDownloadInternal cfg mgr now s
  | .finished, s => downloadFinished cfg mgr now s
  | .failed e c u, s => downloadFailed e c u s
  | .optsChanged, s => optionsChanged cfg mgr now s

/-- `atools::fs::online::fac::FacilityType`, the closed enum the `switch`
of `updateAtcSizes` ranges over. -/
inductive FacilityType
  | UNKNOWN
  | OBSERVER
  | FLIGHT_INFORMATION
  | DELIVERY
  | GROUND
  | TOWER
  | APPROACH
  | ACC
  | DEPARTURE
  deriving DecidableEq, Repr

/-- `atools::fs::online::allFacilityTypes`: every value of the closed
facility-type enum. -/
def allFacilityTypes : List FacilityType :=
  [.UNKNOWN, .OBSERVER, .FLIGHT_INFORMATION, .DELIVERY, .GROUND, .TOWER,
   .APPROACH, .ACC, .DEPARTURE]

/-- The display-diameter settings of `OptionData` consumed by
`updateAtcSizes`. -/
structure DisplayOptions where
  displayOnlineObserver : Int
  displayOnlineFir : Int
  displayOnlineClearance : Int
  displayOnlineGround : Int
  displayOnlineTower : Int
  displayOnlineApproach : Int
  displayOnlineArea : Int
  displayOnlineDeparture : Int
  deriving DecidableEq, Repr

/-- The `switch` of `updateAtcSizes`: `int diameter = -1` followed by the
per-type assignment (`UNKNOWN` keeps the initial `-1`). -/
def facilityDiameter (od : DisplayOptions) : FacilityType → Int
  | .UNKNOWN => -1
  | .OBSERVER => od.displayOnlineObserver
  | .FLIGHT_INFORMATION => od.displayOnlineFir
  | .DELIVERY => od.displayOnlineClearance
  | .GROUND => od.displayOnlineGround
  | .TOWER => od.displayOnlineTower
  | .APPROACH => od.displayOnlineApproach
  | .ACC => od.displayOnlineArea
  | .DEPARTURE => od.displayOnlineDeparture

/-- `OnlinedataController::updateAtcSizes`: the size map handed to
`manager->setAtcSize`.  C++ `diameter / 2` on `int` truncates toward zero,
hence `Int.tdiv`. -/
def updateAtcSizes (od : DisplayOptions) : List (FacilityType × Int) :=
  allFacilityTypes.map (fun t =>
    let diameter := facilityDiameter od t
    (t, if diameter ≠ -1 then max 1 (Int.tdiv diameter 2) else -1))

/-- The registration/position set collected at the start of
`OnlinedataController::getAircraft`: the user aircraft, plus the AI
aircraft when connected to the simulator (or the user aircraft is a debug
aircraft), with the empty registration removed. -/
def curRegistrations (userAircraft : SimAircraft) (aiAircraft : List SimAircraft)
    (connectedOrDebug : Bool) : StrMap Pos :=
  let regs := StrMap.insert StrMap.empty userAircraft.registration userAircraft.pos
  let regs :=
    if connectedOrDebug then
      aiAircraft.foldl (fun m a => StrMap.insert m a.registration a.pos) regs
    else regs
  StrMap.erase regs ""

/-- The registration comparison of `getAircraft`: when the key lists differ
the cache is cleared (and later reloaded), otherwise it is kept. -/
def cacheAfterRegCheck (cache : List SimAircraft)
    (simulatorAiRegistrations cur : StrMap Pos) : List SimAircraft :=
  if StrMap.keys simulatorAiRegistrations = StrMap.keys cur then cache else []

/-- The append condition of the cache fill loop of `getAircraft`: keep an
online record unless a simulator aircraft with the same registration is
close by. -/
def keepOnlineAircraft (dist : Pos → Pos → Rat) (cur : StrMap Pos)
    (a : SimAircraft) : Bool :=
  !(StrMap.contains cur a.registration) ||
    decide ((MIN_DISTANCE_DUPLICATE_M : Rat) <
      dist a.pos (StrMap.valueD cur a.registration Pos.invalid))

/-- The state `getAircraft` leaves behind: the cache list and the stored
simulator registrations. -/
structure GetAircraftResult where
  aircraftCache : List SimAircraft
  simulatorAiRegistrations : StrMap Pos
  deriving DecidableEq, Repr

/-- `OnlinedataController::getAircraft`.  The spatial part
(`SimpleRectCache::updateCache`, the rectangle split and the SQL query) is
external; `cacheAfterUpdate` is the cache list it leaves behind and
`queryResults` the aircraft the rectangle query yields. -/
def getAircraft (dist : Pos → Pos → Rat) (userAircraft : SimAircraft)
    (aiAircraft : List SimAircraft) (connectedOrDebug : Bool) (lazy : Bool)
    (queryResults cacheAfterUpdate : List SimAircraft)
    (simulatorAiRegistrations : StrMap Pos) : GetAircraftResult :=
  let cur := curRegistrations userAircraft aiAircraft connectedOrDebug
  let cache := cacheAfterRegCheck cacheAfterUpdate simulatorAiRegistrations cur
  if cache.isEmpty = true ∧ lazy = false then
    { aircraftCache := queryResults.filter (keepOnlineAircraft dist cur),
      simulatorAiRegistrations := cur }
  else
    { aircraftCache := cache, simulatorAiRegistrations := simulatorAiRegistrations }

/-- `OnlinedataController::isShadowAircraft`: `QHash::value` yields a
default-constructed (invalid) position for an unknown registration. -/
def isShadowAircraft (dist : Pos → Pos → Rat) (clientCallsignAndPosMap : StrMap Pos)
    (simAircraft : SimAircraft) : Bool :=
  let pos := StrMap.valueD clientCallsignAndPosMap simAircraft.registration Pos.invalid
  simAircraft.onlineShadow ||
    (pos.isValid && decide (dist pos simAircraft.pos < (MIN_DISTANCE_DUPLICATE_M : Rat)))

/-- `OnlinedataController::getShadowAircraft`.  `clientRecords` is the
manager's answer to `getClientRecordsByCallsign` for the simulator
aircraft's registration, each record already converted through
`fillAircraftFromClient`. -/
def getShadowAircraft (dist : Pos → Pos → Rat) (clientCallsignAndPosMap : StrMap Pos)
    (clientRecords : List SimAircraft) (onlineClient simAircraft : SimAircraft) :
    Bool × SimAircraft :=
  if isShadowAircraft dist clientCallsignAndPosMap simAircraft then
    match clientRecords with
    | [] => (false, onlineClient)
    | c :: _ =>
      -- fill from the first client record, then overlay the simulator position
      (true, { c with pos := simAircraft.pos })
  else (false, onlineClient)

/-- Loop body of the collection loop of `filterOnlineShadowAircraft`:
record a shadow-flagged simulator aircraft with a non-empty registration
known to the last cache fill. -/
def shadowRegStep (simulatorAiRegistrations : StrMap Pos) (regs : StrMap Pos)
    (ac : SimAircraft) : StrMap Pos :=
  if ac.onlineShadow && !(decide (ac.registration = "")) &&
     StrMap.contains simulatorAiRegistrations ac.registration then
    StrMap.insert regs ac.registration ac.pos
  else regs

/-- The collection loop of `filterOnlineShadowAircraft`: shadow-flagged
simulator aircraft with a non-empty registration known to the last cache
fill. -/
def collectShadowRegistrations (simAircraft : List SimAircraft)
    (simulatorAiRegistrations : StrMap Pos) : StrMap Pos :=
  simAircraft.foldl (shadowRegStep simulatorAiRegistrations) StrMap.empty

/-- `OnlinedataController::filterOnlineShadowAircraft`: remove the online
aircraft that have a close-by shadow copy in the simulator
(`std::remove_if` becomes a filter on the negated predicate). -/
def filterOnlineShadowAircraft (dist : Pos → Pos → Rat)
    (onlineAircraft simAircraft : List SimAircraft)
    (simulatorAiRegistrations : StrMap Pos) : List SimAircraft :=
  let regs := collectShadowRegistrations simAircraft simulatorAiRegistrations
  onlineAircraft.filter (fun a =>
    !(StrMap.contains regs a.registration &&
      decide (dist a.pos (StrMap.valueD regs a.registration Pos.invalid) ≤
        (MIN_DISTANCE_DUPLICATE_M : Rat))))

/-! ### Properties of the key order -/

theorem charListLt_irrefl : ∀ l : List Char, charListLt l l = false
  | [] => rfl
  | a :: as => by simp [charListLt, charListLt_irrefl as]

theorem charListLt_asymm : ∀ {l₁ l₂ : List Char},
    charListLt l₁ l₂ = true → charListLt l₂ l₁ = true → False
  | [], [], h₁, _ => by simp [charListLt] at h₁
  | [], _ :: _, _, h₂ => by simp [charListLt] at h₂
  | _ :: _, [], h₁, _ => by simp [charListLt] at h₁
  | a :: as, b :: bs, h₁, h₂ => by
    simp only [charListLt] at h₁ h₂
    rcases Nat.lt_trichotomy a.toNat b.toNat with hab | hab | hab
    · rw [if_neg (Nat.lt_asymm hab), if_pos hab] at h₂
      exact absurd h₂ (by simp)
    · rw [if_neg (by omega), if_neg (by omega)] at h₁ h₂
      exact charListLt_asymm h₁ h₂
    · rw [if_neg (Nat.lt_asymm hab), if_pos hab] at h₁
      exact absurd h₁ (by simp)

theorem charListLt_trans : ∀ {l₁ l₂ l₃ : List Char},
    charListLt l₁ l₂ = true → charListLt l₂ l₃ = true → charListLt l₁ l₃ = true
  | _, l₂, [], _, h₂ => by cases l₂ <;> simp [charListLt] at h₂
  | [], _, _ :: _, _, _ => by simp [charListLt]
  | _ :: _, [], _ :: _, h₁, _ => by simp [charListLt] at h₁
  | a :: as, b :: bs, c :: cs, h₁, h₂ => by
    simp only [charListLt] at h₁ h₂ ⊢
    by_cases hab : a.toNat < b.toNat <;> by_cases hbc : b.toNat < c.toNat
    · rw [if_pos (by omega)]
    · rw [if_neg hbc] at h₂
      by_cases hcb : c.toNat < b.toNat
      · rw [if_pos hcb] at h₂; exact absurd h₂ (by simp)
      · rw [if_pos (by omega)]
    · rw [if_neg hab] at h₁
      by_cases hba : b.toNat < a.toNat
      · rw [if_pos hba] at h₁; exact absurd h₁ (by simp)
      · rw [if_pos (by omega)]
    · rw [if_neg hab] at h₁
      rw [if_neg hbc] at h₂
      by_cases hba : b.toNat < a.toNat
      · rw [if_pos hba] at h₁; exact absurd h₁ (by simp)
      · by_cases hcb : c.toNat < b.toNat
        · rw [if_pos hcb] at h₂; exact absurd h₂ (by simp)
        · rw [if_neg hba] at h₁
          rw [if_neg hcb] at h₂
          rw [if_neg (by omega), if_neg (by omega)]
          exact charListLt_trans h₁ h₂

theorem charListLt_eq_of_not_lt : ∀ {l₁ l₂ : List Char},
    charListLt l₁ l₂ = false → charListLt l₂ l₁ = false → l₁ = l₂
  | [], [], _, _ => rfl
  | [], _ :: _, h₁, _ => by simp [charListLt] at h₁
  | _ :: _, [], _, h₂ => by simp [charListLt] at h₂
  | a :: as, b :: bs, h₁, h₂ => by
    simp only [charListLt] at h₁ h₂
    by_cases hab : a.toNat < b.toNat
    · rw [if_pos hab] at h₁; exact absurd h₁ (by simp)
    · by_cases hba : b.toNat < a.toNat
      · rw [if_pos hba] at h₂; exact absurd h₂ (by simp)
      · rw [if_neg hab, if_neg hba] at h₁
        rw [if_neg hba, if_neg hab] at h₂
        have hn : a.toNat = b.toNat := by omega
        have hc : a = b := Char.eq_of_val_eq (UInt32.ext hn)
        rw [hc, charListLt_eq_of_not_lt h₁ h₂]

theorem strLt_irrefl (a : String) : strLt a a = false :=
  charListLt_irrefl a.data

theorem strLt_asymm {a b : String} (h₁ : strLt a b = true) (h₂ : strLt b a = true) : False :=
  charListLt_asymm h₁ h₂

theorem strLt_trans {a b c : String} (h₁ : strLt a b = true) (h₂ : strLt b c = true) :
    strLt a c = true :=
  charListLt_trans h₁ h₂

theorem strLt_eq_of_not_lt {a b : String} (h₁ : strLt a b = false) (h₂ : strLt b a = false) :
    a = b := by
  cases a with
  | mk da =>
    cases b with
    | mk db => exact congrArg String.mk (charListLt_eq_of_not_lt h₁ h₂)

theorem strLt_total {a b : String} (h₁ : strLt a b = false) (h₂ : a ≠ b) :
    strLt b a = true := by
  cases hba : strLt b a with
  | true => rfl
  | false => exact absurd (strLt_eq_of_not_lt h₁ hba) h₂

theorem ne_of_strLt {a b : String} (h : strLt a b = true) : a ≠ b := by
  intro he
  rw [he, strLt_irrefl] at h
  exact absurd h (by simp)

/-- Two strictly sorted key lists with the same members are equal. -/
theorem sorted_eq_of_mem_iff : ∀ {l₁ l₂ : List String},
    List.Pairwise (fun a b => strLt a b = true) l₁ →
    List.Pairwise (fun a b => strLt a b = true) l₂ →
    (∀ x, x ∈ l₁ ↔ x ∈ l₂) → l₁ = l₂
  | [], [], _, _, _ => rfl
  | [], b :: t₂, _, _, hm => by
    exact absurd ((hm b).mpr (List.mem_cons_self b t₂)) (List.not_mem_nil b)
  | a :: t₁, [], _, _, hm => by
    exact absurd ((hm a).mp (List.mem_cons_self a t₁)) (List.not_mem_nil a)
  | a :: t₁, b :: t₂, h₁, h₂, hm => by
    have hab : a = b := by
      rcases List.mem_cons.mp ((hm a).mp (List.mem_cons_self a t₁)) with h | h
      · exact h
      · rcases List.mem_cons.mp ((hm b).mpr (List.mem_cons_self b t₂)) with h' | h'
        · exact h'.symm
        · exact absurd (List.rel_of_pairwise_cons h₁ h') fun hba =>
            strLt_asymm hba (List.rel_of_pairwise_cons h₂ h)
    subst hab
    have hmt : ∀ x, x ∈ t₁ ↔ x ∈ t₂ := by
      intro x
      constructor
      · intro hx
        have hax := List.rel_of_pairwise_cons h₁ hx
        rcases List.mem_cons.mp ((hm x).mp (List.mem_cons_of_mem a hx)) with h | h
        · exact absurd (h ▸ hax) (by simp [strLt_irrefl])
        · exact h
      · intro hx
        have hax := List.rel_of_pairwise_cons h₂ hx
        rcases List.mem_cons.mp ((hm x).mpr (List.mem_cons_of_mem a hx)) with h | h
        · exact absurd (h ▸ hax) (by simp [strLt_irrefl])
        · exact h
    rw [sorted_eq_of_mem_iff (List.Pairwise.of_cons h₁) (List.Pairwise.of_cons h₂) hmt]

/-! ### Properties of the hash model -/

namespace StrMap

theorem find?_insert_self {β : Type} : ∀ (m : StrMap β) (k : String) (v : β),
    find? (insert m k v) k = some v
  | [], k, v => by simp [insert, find?]
  | (k', v') :: t, k, v => by
    simp only [insert]
    split_ifs with h1 h2
    · simp [find?]
    · simp [find?]
    · simp [find?, h2, find?_insert_self t k v]

theorem find?_insert_ne {β : Type} : ∀ (m : StrMap β) (r k : String) (v : β), r ≠ k →
    find? (insert m k v) r = find? m r
  | [], r, k, v, h => by simp [insert, find?, h]
  | (k', v') :: t, r, k, v, h => by
    simp only [insert]
    split_ifs with h1 h2
    · simp [find?, h]
    · subst h2
      simp [find?, h]
    · simp only [find?]
      split_ifs with h3
      · rfl
      · exact find?_insert_ne t r k v h

theorem find?_insert_eq_some {β : Type} (m : StrMap β) (k r : String) (v p : β) :
    find? (insert m k v) r = some p ↔
      (r = k ∧ p = v) ∨ (r ≠ k ∧ find? m r = some p) := by
  by_cases h : r = k
  · subst h
    simp [find?_insert_self, eq_comm]
  · simp [find?_insert_ne m r k v h, h]

theorem mem_keys_insert {β : Type} : ∀ (m : StrMap β) (k a : String) (v : β),
    a ∈ keys (insert m k v) ↔ a = k ∨ a ∈ keys m
  | [], k, a, v => by simp [insert, keys]
  | (k', v') :: t, k, a, v => by
    simp only [insert]
    split_ifs with h1 h2
    · simp [keys]
    · subst h2
      simp only [keys, List.map_cons, List.mem_cons]
      tauto
    · simp only [keys, List.map_cons, List.mem_cons] at *
      rw [show List.map Prod.fst (insert t k v) = keys (insert t k v) from rfl,
          mem_keys_insert t k a v]
      tauto

theorem contains_iff_mem_keys {β : Type} : ∀ (m : StrMap β) (k : String),
    contains m k = true ↔ k ∈ keys m
  | [], k => by simp [contains, find?, keys]
  | (k', v') :: t, k => by
    by_cases h : k = k'
    · subst h
      simp [contains, find?, keys]
    · have ht := contains_iff_mem_keys t k
      simp only [contains] at ht
      show (find? ((k', v') :: t) k).isSome = true ↔ k ∈ keys ((k', v') :: t)
      rw [show find? ((k', v') :: t) k = find? t k from by simp [find?, h]]
      rw [ht]
      simp [keys, h]

theorem contains_eq_isSome_find? {β : Type} (m : StrMap β) (k : String) :
    contains m k = (find? m k).isSome := rfl

theorem sortedKeys_empty {β : Type} : SortedKeys (empty : StrMap β) :=
  List.Pairwise.nil

theorem sortedKeys_insert {β : Type} : ∀ (m : StrMap β) (k : String) (v : β),
    SortedKeys m → SortedKeys (insert m k v)
  | [], k, v, _ => by simp [SortedKeys, insert, keys]
  | (k', v') :: t, k, v, h => by
    simp only [SortedKeys, keys, List.map_cons, List.pairwise_cons] at h
    simp only [insert]
    split_ifs with h1 h2
    · simp only [SortedKeys, keys, List.map_cons, List.pairwise_cons, List.mem_cons]
      refine ⟨?_, h.1, h.2⟩
      rintro b (rfl | hb)
      · exact h1
      · exact strLt_trans h1 (h.1 b hb)
    · subst h2
      simp only [SortedKeys, keys, List.map_cons, List.pairwise_cons]
      exact h
    · simp only [SortedKeys, keys, List.map_cons, List.pairwise_cons]
      constructor
      · intro b hb
        rcases (mem_keys_insert t k b v).mp hb with rfl | hb'
        · exact strLt_total (by simpa using h1) h2
        · exact h.1 b hb'
      · exact sortedKeys_insert t k v h.2

theorem sortedKeys_erase {β : Type} (m : StrMap β) (k : String) (h : SortedKeys m) :
    SortedKeys (erase m k) :=
  List.Pairwise.sublist ((List.filter_sublist m).map Prod.fst) h

end StrMap

theorem sortedKeys_foldl_insert : ∀ (l : List SimAircraft) (m : StrMap Pos),
    StrMap.SortedKeys m →
    StrMap.SortedKeys (l.foldl (fun m a => StrMap.insert m a.registration a.pos) m)
  | [], _, h => h
  | a :: t, m, h =>
    sortedKeys_foldl_insert t _ (StrMap.sortedKeys_insert m a.registration a.pos h)

theorem sortedKeys_curRegistrations (u : SimAircraft) (ai : List SimAircraft) (c : Bool) :
    StrMap.SortedKeys (curRegistrations u ai c) := by
  have h0 : StrMap.SortedKeys (StrMap.insert (StrMap.empty : StrMap Pos) u.registration u.pos) :=
    StrMap.sortedKeys_insert _ _ _ StrMap.sortedKeys_empty
  unfold curRegistrations
  cases c with
  | false => exact StrMap.sortedKeys_erase _ _ h0
  | true => exact StrMap.sortedKeys_erase _ _ (sortedKeys_foldl_insert ai _ h0)

/-- Everything stored by the registration-collection loop of
`filterOnlineShadowAircraft` either was in the accumulator already or comes
from a qualifying simulator aircraft of the processed list. -/
theorem find?_foldl_shadowRegStep : ∀ (l : List SimAircraft) (simRegs m0 : StrMap Pos)
    (r : String) (p : Pos),
    StrMap.find? (l.foldl (shadowRegStep simRegs) m0) r = some p →
    StrMap.find? m0 r = some p ∨
      ∃ ac, ac ∈ l ∧ ac.onlineShadow = true ∧ ¬(ac.registration = "") ∧
        StrMap.contains simRegs ac.registration = true ∧ ac.registration = r ∧ ac.pos = p
  | [], _, _, _, _, h => Or.inl h
  | a :: t, simRegs, m0, r, p, h => by
    rcases find?_foldl_shadowRegStep t simRegs _ r p h with h' | ⟨ac, hmem, hs, hn, hc, hr, hp⟩
    · unfold shadowRegStep at h'
      split_ifs at h' with hcond
      · rcases (StrMap.find?_insert_eq_some m0 a.registration r a.pos p).mp h' with
          ⟨hrk, hpv⟩ | ⟨_, hf⟩
        · simp only [Bool.and_eq_true, Bool.not_eq_eq_eq_not, Bool.not_true,
            decide_eq_false_iff_not] at hcond
          exact Or.inr ⟨a, List.mem_cons_self a t, hcond.1.1, hcond.1.2, hcond.2,
            hrk.symm, hpv.symm⟩
        · exact Or.inl hf
      · exact Or.inl h'
    · exact Or.inr ⟨ac, List.mem_cons_of_mem a hmem, hs, hn, hc, hr, hp⟩

/-! ### Inversion lemmas for the state machine -/

/-- `startDownloadInternal` never produces `DOWNLOADING_WHAZZUP_SERVERS`:
it only selects the transceivers, status or whazzup stage. -/
theorem startDownloadInternal_no_servers (cfg : Config) (mgr : ManagerView) (now : Int)
    (s : Ctrl)
    (h : (startDownloadInternal cfg mgr now s).1.currentState =
      State.DOWNLOADING_WHAZZUP_SERVERS) :
    s.currentState = State.DOWNLOADING_WHAZZUP_SERVERS := by
  simp only [startDownloadInternal, stopAllProcesses] at h
  split_ifs at h <;> simp_all

/-- `downloadFailed` always resets the state to `NONE`. -/
theorem downloadFailed_state (error : String) (errorCode : Int) (url : String) (s : Ctrl) :
    (downloadFailed error errorCode url s).1.currentState = State.NONE := rfl

/-- `optionsChanged` ends in the stage chosen by `startDownloadInternal`,
never in `DOWNLOADING_WHAZZUP_SERVERS`. -/
theorem optionsChanged_no_servers (cfg : Config) (mgr : ManagerView) (now : Int) (s : Ctrl) :
    (optionsChanged cfg mgr now s).1.currentState ≠ State.DOWNLOADING_WHAZZUP_SERVERS := by
  intro h
  simp only [optionsChanged] at h
  have h2 := startDownloadInternal_no_servers _ _ _ _ h
  simp [stopAllProcesses] at h2

/-- Inversion of `downloadFinished`: the servers stage is reached only from
the whazzup stage of an accepted legacy-format payload with a known voice
URL and a stale last server download. -/
theorem downloadFinished_servers_inversion (cfg : Config) (mgr : ManagerView) (now : Int)
    (s : Ctrl)
    (h : (downloadFinished cfg mgr now s).1.currentState =
      State.DOWNLOADING_WHAZZUP_SERVERS) :
    s.currentState = State.DOWNLOADING_WHAZZUP ∧
    mgr.readFromWhazzupAccepted = true ∧
    convertFormat cfg.onlineFormat ≠ Format.VATSIM_JSON3 ∧
    convertFormat cfg.onlineFormat ≠ Format.IVAO_JSON2 ∧
    mgr.whazzupVoiceUrlFromStatus ≠ "" ∧
    qdtLt s.lastServerDownload (some (now - MIN_SERVER_DOWNLOAD_INTERVAL_MIN * 60)) = true := by
  simp only [downloadFinished, startDownloadTimer] at h
  split_ifs at h <;> simp_all

/-! ### Claim theorems -/

/-- C1: a call to `startDownloadInternal` made while the downloader reports
a download in flight or while `currentState != NONE` is a no-op: the state
(including the URL set on the downloader) is unchanged and no effect — in
particular no fetch — is issued. -/
theorem startDownloadInternal_noop_when_busy (cfg : Config) (mgr : ManagerView) (now : Int)
    (s : Ctrl) (h : s.downloaderDownloading = true ∨ s.currentState ≠ State.NONE) :
    startDownloadInternal cfg mgr now s = (s, []) := by
  unfold startDownloadInternal
  rw [if_pos h]

def cfgBusy : Config :=
  { onlineNetwork := .ONLINE_VATSIM, onlineFormat := .ONLINE_FORMAT_VATSIM,
    onlineStatusUrl := "http://s", onlineWhazzupUrl := "", onlineTransceiverUrl := "http://t",
    onlineVatsimTransceiverReload := -1, onlineReloadSeconds := -1, noUserAgent := true }

def mgrBusy : ManagerView :=
  { whazzupUrlFromStatus := "http://w", whazzupGzipped := false, whazzupJson := false,
    messageFromStatus := "", whazzupVoiceUrlFromStatus := "http://v",
    reloadMinutesFromWhazzup := 2, readFromWhazzupAccepted := true,
    clientCallsignAndPosMap := [] }

def sBusy : Ctrl :=
  { currentState := .DOWNLOADING_STATUS, whazzupUrlFromStatus := "",
    lastUpdateTime := none, lastUpdateTimeTransceivers := none,
    lastServerDownload := none, clientCallsignAndPosMap := [],
    aircraftCache := [], simulatorAiRegistrations := [],
    downloadTimerRunning := false, downloadTimerIntervalMs := 0,
    downloaderUrl := "http://s", downloaderDownloading := false }

/-- Witness for C1 at a concrete mid-cycle state. -/
theorem startDownloadInternal_noop_when_busy_witness :
    startDownloadInternal cfgBusy mgrBusy 500 sBusy = (sBusy, []) :=
  startDownloadInternal_noop_when_busy cfgBusy mgrBusy 500 sBusy (Or.inr (by decide))

/-- C2: every fetch failure aborts the whole chain at once: the pending
download is cancelled, the re-poll timer is stopped, the state is reset to
`NONE`, the simulator registrations are cleared, a status message naming
the failed URL and the error is produced, and a single retry of the whole
cycle is scheduled by an independent single-shot timer after 180 seconds
(180000 ms). -/
theorem downloadFailed_aborts_and_schedules_retry (error : String) (errorCode : Int)
    (url : String) (s : Ctrl) :
    (downloadFailed error errorCode url s).1.currentState = State.NONE ∧
    (downloadFailed error errorCode url s).1.downloadTimerRunning = false ∧
    (downloadFailed error errorCode url s).1.downloaderDownloading = false ∧
    (downloadFailed error errorCode url s).1.simulatorAiRegistrations = StrMap.empty ∧
    (downloadFailed error errorCode url s).2 =
      [Effect.cancelDownload,
       Effect.connectionStatusMessage "Online Network Failed" (failedMessageText url error),
       Effect.scheduleRetryMs (180 * 1000)] ∧
    ∃ pre mid post, failedMessageText url error = pre ++ url ++ mid ++ error ++ post :=
  ⟨rfl, rfl, rfl, rfl, rfl,
   "Download from\n\"", "\"\nfailed. Reason:\n", "\nRetrying again in three minutes.", rfl⟩

/-- C3: a whazzup payload whose reported timestamp is not newer than the
last accepted one (`readFromWhazzup` returns `false`) emits no updated
notification (the effect list is empty), leaves `aircraftCache`,
`simulatorAiRegistrations` and `clientCallsignAndPosMap` unchanged, and
still completes the cycle: the state returns to `NONE`, `lastUpdateTime`
is set to now, and the re-poll timer is restarted. -/
theorem downloadFinished_stale_whazzup_no_signals (cfg : Config) (mgr : ManagerView)
    (now : Int) (s : Ctrl) (hstate : s.currentState = State.DOWNLOADING_WHAZZUP)
    (hstale : mgr.readFromWhazzupAccepted = false) :
    (downloadFinished cfg mgr now s).2 = [] ∧
    (downloadFinished cfg mgr now s).1.aircraftCache = s.aircraftCache ∧
    (downloadFinished cfg mgr now s).1.simulatorAiRegistrations =
      s.simulatorAiRegistrations ∧
    (downloadFinished cfg mgr now s).1.clientCallsignAndPosMap =
      s.clientCallsignAndPosMap ∧
    (downloadFinished cfg mgr now s).1.currentState = State.NONE ∧
    (downloadFinished cfg mgr now s).1.lastUpdateTime = some now ∧
    (downloadFinished cfg mgr now s).1.downloadTimerRunning = true := by
  simp [downloadFinished, hstate, hstale, startDownloadTimer]

def sStale : Ctrl :=
  { currentState := .DOWNLOADING_WHAZZUP, whazzupUrlFromStatus := "http://w",
    lastUpdateTime := some 100, lastUpdateTimeTransceivers := none,
    lastServerDownload := none,
    clientCallsignAndPosMap := [("DLH1", ⟨true, 8, 50⟩)],
    aircraftCache := [⟨"DLH1", ⟨true, 8, 50⟩, false⟩],
    simulatorAiRegistrations := [("DEABC", ⟨true, 9, 51⟩)],
    downloadTimerRunning := false, downloadTimerIntervalMs := 0,
    downloaderUrl := "http://w", downloaderDownloading := false }

def mgrStale : ManagerView :=
  { mgrBusy with readFromWhazzupAccepted := false }

/-- Witness for C3 at a concrete stale payload. -/
theorem downloadFinished_stale_whazzup_no_signals_witness :
    (downloadFinished cfgBusy mgrStale 1000 sStale).2 = [] ∧
    (downloadFinished cfgBusy mgrStale 1000 sStale).1.aircraftCache =
      sStale.aircraftCache ∧
    (downloadFinished cfgBusy mgrStale 1000 sStale).1.simulatorAiRegistrations =
      sStale.simulatorAiRegistrations ∧
    (downloadFinished cfgBusy mgrStale 1000 sStale).1.clientCallsignAndPosMap =
      sStale.clientCallsignAndPosMap ∧
    (downloadFinished cfgBusy mgrStale 1000 sStale).1.currentState = State.NONE ∧
    (downloadFinished cfgBusy mgrStale 1000 sStale).1.lastUpdateTime = some 1000 ∧
    (downloadFinished cfgBusy mgrStale 1000 sStale).1.downloadTimerRunning = true :=
  downloadFinished_stale_whazzup_no_signals cfgBusy mgrStale 1000 sStale rfl rfl

/-- C4 counterexample: with a custom network whose configured interval is
5 seconds, a completed whazzup cycle sets the re-poll timer to 5000 ms, not
to `max(5, MIN_RELOAD_TIME_SECONDS) * 1000 = 15000` ms as the claim
states: the 15-second floor is not applied to custom networks. -/
def cfgCustom5 : Config :=
  { onlineNetwork := .ONLINE_CUSTOM, onlineFormat := .ONLINE_FORMAT_VATSIM,
    onlineStatusUrl := "", onlineWhazzupUrl := "http://wz", onlineTransceiverUrl := "",
    onlineVatsimTransceiverReload := -1, onlineReloadSeconds := 5, noUserAgent := true }

def mgrCustom : ManagerView :=
  { whazzupUrlFromStatus := "", whazzupGzipped := false, whazzupJson := false,
    messageFromStatus := "", whazzupVoiceUrlFromStatus := "",
    reloadMinutesFromWhazzup := 2, readFromWhazzupAccepted := true,
    clientCallsignAndPosMap := [] }

def sCustom : Ctrl :=
  { currentState := .DOWNLOADING_WHAZZUP, whazzupUrlFromStatus := "",
    lastUpdateTime := none, lastUpdateTimeTransceivers := none,
    lastServerDownload := none, clientCallsignAndPosMap := [],
    aircraftCache := [], simulatorAiRegistrations := [],
    downloadTimerRunning := false, downloadTimerIntervalMs := 0,
    downloaderUrl := "http://wz", downloaderDownloading := false }

/-- C4 is false on the code: concrete custom-network transition to `NONE`
whose timer interval is the raw configured 5 s, not `max(5, 15)` s. -/
theorem startDownloadTimer_custom_below_minimum_counterexample :
    cfgCustom5.onlineNetwork = OnlineNetwork.ONLINE_CUSTOM ∧
    (downloadFinished cfgCustom5 mgrCustom 1000 sCustom).1.currentState = State.NONE ∧
    (downloadFinished cfgCustom5 mgrCustom 1000 sCustom).1.downloadTimerRunning = true ∧
    (downloadFinished cfgCustom5 mgrCustom 1000 sCustom).1.downloadTimerIntervalMs =
      5 * 1000 ∧
    ¬((downloadFinished cfgCustom5 mgrCustom 1000 sCustom).1.downloadTimerIntervalMs =
        max cfgCustom5.onlineReloadSeconds MIN_RELOAD_TIME_SECONDS * 1000) := by
  decide

/-- C4 (amended): on every completion-driven transition to `NONE` with a
custom network active, the re-poll interval set on the timer equals the
configured interval exactly — no minimum floor is applied and any
reload-minutes hint in the payload is ignored. -/
theorem downloadFinished_custom_interval_exact (cfg : Config) (mgr : ManagerView)
    (now : Int) (s : Ctrl)
    (hnet : cfg.onlineNetwork = OnlineNetwork.ONLINE_CUSTOM ∨
      cfg.onlineNetwork = OnlineNetwork.ONLINE_CUSTOM_STATUS)
    (hpre : s.currentState ≠ State.NONE)
    (hpost : (downloadFinished cfg mgr now s).1.currentState = State.NONE) :
    (downloadFinished cfg mgr now s).1.downloadTimerRunning = true ∧
    (downloadFinished cfg mgr now s).1.downloadTimerIntervalMs =
      cfg.onlineReloadSeconds * 1000 := by
  have hsec : startDownloadTimerSeconds cfg mgr = cfg.onlineReloadSeconds := by
    unfold startDownloadTimerSeconds
    rw [if_pos hnet]
  simp only [downloadFinished, startDownloadTimer] at hpost ⊢
  split_ifs at hpost ⊢ <;> simp_all

/-- Witness for the amended C4 at the counterexample input. -/
theorem downloadFinished_custom_interval_exact_witness :
    (downloadFinished cfgCustom5 mgrCustom 1000 sCustom).1.downloadTimerRunning = true ∧
    (downloadFinished cfgCustom5 mgrCustom 1000 sCustom).1.downloadTimerIntervalMs =
      cfgCustom5.onlineReloadSeconds * 1000 :=
  downloadFinished_custom_interval_exact cfgCustom5 mgrCustom 1000 sCustom
    (Or.inl rfl) (by decide) (by decide)

/-- C5: across every event the controller handles, the state
`DOWNLOADING_WHAZZUP_SERVERS` is entered only from `DOWNLOADING_WHAZZUP`
on a finished download whose payload was accepted, only when the
configured format is neither of the JSON variants, only when a voice
server URL was discovered in the status document, and only when the last
server fetch is older than 15 minutes.  In particular runs with a JSON
variant format never enter the servers stage. -/
theorem servers_entered_only_from_legacy_whazzup (cfg : Config) (mgr : ManagerView)
    (now : Int) (ev : Event) (s : Ctrl)
    (hpre : s.currentState ≠ State.DOWNLOADING_WHAZZUP_SERVERS)
    (hpost : (step cfg mgr now ev s).1.currentState = State.DOWNLOADING_WHAZZUP_SERVERS) :
    ev = Event.finished ∧
    s.currentState = State.DOWNLOADING_WHAZZUP ∧
    mgr.readFromWhazzupAccepted = true ∧
    convertFormat cfg.onlineFormat ≠ Format.VATSIM_JSON3 ∧
    convertFormat cfg.onlineFormat ≠ Format.IVAO_JSON2 ∧
    mgr.whazzupVoiceUrlFromStatus ≠ "" ∧
    qdtLt s.lastServerDownload (some (now - MIN_SERVER_DOWNLOAD_INTERVAL_MIN * 60)) = true := by
  cases ev with
  | startProcessing =>
    exact absurd (startDownloadInternal_no_servers cfg mgr now s hpost) hpre
  | finished =>
    exact ⟨rfl, downloadFinished_servers_inversion cfg mgr now s hpost⟩
  | failed e c u =>
    exact absurd (downloadFailed_state e c u s ▸ hpost) (by simp)
  | optsChanged =>
    exact absurd hpost (optionsChanged_no_servers cfg mgr now s)

def sWhazzup : Ctrl :=
  { currentState := .DOWNLOADING_WHAZZUP, whazzupUrlFromStatus := "http://w",
    lastUpdateTime := none, lastUpdateTimeTransceivers := none,
    lastServerDownload := none, clientCallsignAndPosMap := [],
    aircraftCache := [], simulatorAiRegistrations := [],
    downloadTimerRunning := false, downloadTimerIntervalMs := 0,
    downloaderUrl := "http://w", downloaderDownloading := false }

/-- Witness for C5 at a concrete legacy-format run entering the servers
stage. -/
theorem servers_entered_only_from_legacy_whazzup_witness :
    Event.finished = Event.finished ∧
    sWhazzup.currentState = State.DOWNLOADING_WHAZZUP ∧
    mgrBusy.readFromWhazzupAccepted = true ∧
    convertFormat cfgBusy.onlineFormat ≠ Format.VATSIM_JSON3 ∧
    convertFormat cfgBusy.onlineFormat ≠ Format.IVAO_JSON2 ∧
    mgrBusy.whazzupVoiceUrlFromStatus ≠ "" ∧
    qdtLt sWhazzup.lastServerDownload
      (some (1000 - MIN_SERVER_DOWNLOAD_INTERVAL_MIN * 60)) = true :=
  servers_entered_only_from_legacy_whazzup cfgBusy mgrBusy 1000 Event.finished sWhazzup
    (by decide) (by decide)

/-- C6: in `getAircraft`, the registration comparison clears the aircraft
cache before the fill exactly when the stored key set differs, as a set
and ignoring positions, from the current user-plus-AI registration set; if
the key sets agree this comparison does not clear the cache.  (`StrMap`
keeps `QHash` keys canonical, so `keys()` equality is key-set equality;
the stored map is canonical, stated as the `SortedKeys` hypothesis.) -/
theorem cache_cleared_iff_registration_set_changed (cacheAfterUpdate : List SimAircraft)
    (simRegs : StrMap Pos) (userAircraft : SimAircraft) (aiAircraft : List SimAircraft)
    (connectedOrDebug : Bool) (hs : StrMap.SortedKeys simRegs) :
    ((∀ x, x ∈ StrMap.keys simRegs ↔
        x ∈ StrMap.keys (curRegistrations userAircraft aiAircraft connectedOrDebug)) →
      cacheAfterRegCheck cacheAfterUpdate simRegs
        (curRegistrations userAircraft aiAircraft connectedOrDebug) = cacheAfterUpdate) ∧
    ((¬ ∀ x, x ∈ StrMap.keys simRegs ↔
        x ∈ StrMap.keys (curRegistrations userAircraft aiAircraft connectedOrDebug)) →
      cacheAfterRegCheck cacheAfterUpdate simRegs
        (curRegistrations userAircraft aiAircraft connectedOrDebug) = []) := by
  constructor
  · intro hiff
    have hk : StrMap.keys simRegs =
        StrMap.keys (curRegistrations userAircraft aiAircraft connectedOrDebug) :=
      sorted_eq_of_mem_iff hs
        (sortedKeys_curRegistrations userAircraft aiAircraft connectedOrDebug) hiff
    unfold cacheAfterRegCheck
    rw [if_pos hk]
  · intro hne
    unfold cacheAfterRegCheck
    rw [if_neg]
    intro hk
    exact hne (fun x => by rw [hk])

def posOnline : Pos := ⟨true, 8, 50⟩

def posSim : Pos := ⟨true, 9, 51⟩

def userX : SimAircraft := ⟨"DEABC", posSim, false⟩

/-- Witness for C6: same key set under different positions keeps the
cache. -/
theorem cache_cleared_iff_registration_set_changed_witness :
    ((∀ x, x ∈ StrMap.keys [("DEABC", posOnline)] ↔
        x ∈ StrMap.keys (curRegistrations userX [] false)) →
      cacheAfterRegCheck [userX] [("DEABC", posOnline)]
        (curRegistrations userX [] false) = [userX]) ∧
    ((¬ ∀ x, x ∈ StrMap.keys [("DEABC", posOnline)] ↔
        x ∈ StrMap.keys (curRegistrations userX [] false)) →
      cacheAfterRegCheck [userX] [("DEABC", posOnline)]
        (curRegistrations userX [] false) = []) :=
  cache_cleared_iff_registration_set_changed [userX] [("DEABC", posOnline)] userX [] false
    (by simp [StrMap.SortedKeys, StrMap.keys])

/-- Pointwise form of the cache-fill append condition: an online record is
kept iff it is not the case that its registration is a current simulator
registration whose stored position is within (boundary inclusive)
`MIN_DISTANCE_DUPLICATE_M`. -/
theorem keepOnlineAircraft_eq_not_and (dist : Pos → Pos → Rat) (cur : StrMap Pos)
    (a : SimAircraft) :
    keepOnlineAircraft dist cur a =
      !(StrMap.contains cur a.registration &&
        decide (dist a.pos (StrMap.valueD cur a.registration Pos.invalid) ≤
          (MIN_DISTANCE_DUPLICATE_M : Rat))) := by
  unfold keepOnlineAircraft
  cases hc : StrMap.contains cur a.registration <;> simp
  rw [← decide_not]
  exact decide_eq_decide.mpr not_le.symm

/-- C7 (amended): at cache-fill time in `getAircraft`, an online record is
excluded exactly when its registration matches a current simulator
registration and the distance is less than or equal to
`MIN_DISTANCE_DUPLICATE_M` — the boundary case `distance = threshold` is
excluded, not included. -/
theorem cache_fill_excludes_within_or_equal (dist : Pos → Pos → Rat)
    (userAircraft : SimAircraft) (aiAircraft : List SimAircraft) (connectedOrDebug : Bool)
    (queryResults cacheAfterUpdate : List SimAircraft) (simRegs : StrMap Pos)
    (hfill : cacheAfterRegCheck cacheAfterUpdate simRegs
      (curRegistrations userAircraft aiAircraft connectedOrDebug) = []) :
    (getAircraft dist userAircraft aiAircraft connectedOrDebug false queryResults
        cacheAfterUpdate simRegs).aircraftCache =
      queryResults.filter (fun a =>
        !(StrMap.contains (curRegistrations userAircraft aiAircraft connectedOrDebug)
            a.registration &&
          decide (dist a.pos
            (StrMap.valueD (curRegistrations userAircraft aiAircraft connectedOrDebug)
              a.registration Pos.invalid) ≤ (MIN_DISTANCE_DUPLICATE_M : Rat)))) := by
  simp only [getAircraft, hfill, List.isEmpty_nil, true_and, if_true]
  exact List.filter_congr (fun a _ => keepOnlineAircraft_eq_not_and dist
    (curRegistrations userAircraft aiAircraft connectedOrDebug) a)

/-- Constant distance function sitting exactly on the duplicate-distance
boundary. -/
def distBoundary : Pos → Pos → Rat := fun _ _ => 55560

def aOnlineX : SimAircraft := ⟨"DEABC", posOnline, false⟩

/-- C7 is false on the code at the boundary: with
`distance = MIN_DISTANCE_DUPLICATE_M` exactly (not strictly below), the
online record is still excluded from the cache fill, while the claim says
it is included. -/
theorem cache_fill_boundary_counterexample :
    ¬ ((aOnlineX ∉ (getAircraft distBoundary userX [] false false [aOnlineX] []
          []).aircraftCache) ↔
        (StrMap.contains (curRegistrations userX [] false) aOnlineX.registration = true ∧
          distBoundary aOnlineX.pos
            (StrMap.valueD (curRegistrations userX [] false) aOnlineX.registration
              Pos.invalid) < (MIN_DISTANCE_DUPLICATE_M : Rat))) := by
  decide

/-- Witness for the amended C7 at the boundary input. -/
theorem cache_fill_excludes_within_or_equal_witness :
    (getAircraft distBoundary userX [] false false [aOnlineX] [] []).aircraftCache =
      List.filter (fun a =>
        !(StrMap.contains (curRegistrations userX [] false) a.registration &&
          decide (distBoundary a.pos
            (StrMap.valueD (curRegistrations userX [] false) a.registration Pos.invalid) ≤
            (MIN_DISTANCE_DUPLICATE_M : Rat)))) [aOnlineX] :=
  cache_fill_excludes_within_or_equal distBoundary userX [] false [aOnlineX] [] []
    (by decide)

/-- C8: `isShadowAircraft` is true iff the simulator aircraft is flagged
as an online shadow or its registration has a recorded valid online
position strictly within `MIN_DISTANCE_DUPLICATE_M` of its current
position; and `getShadowAircraft` with no stored client record returns
`false` and leaves the output aircraft untouched (the embedding is total,
so no exception is possible). -/
theorem shadow_resolution_characterization (dist : Pos → Pos → Rat)
    (clientCallsignAndPosMap : StrMap Pos) (clientRecords : List SimAircraft)
    (onlineClient simAircraft : SimAircraft) (hrec : clientRecords = []) :
    (isShadowAircraft dist clientCallsignAndPosMap simAircraft = true ↔
      (simAircraft.onlineShadow = true ∨
        ∃ p, StrMap.find? clientCallsignAndPosMap simAircraft.registration = some p ∧
          p.valid = true ∧ dist p simAircraft.pos < (MIN_DISTANCE_DUPLICATE_M : Rat))) ∧
    getShadowAircraft dist clientCallsignAndPosMap clientRecords onlineClient simAircraft =
      (false, onlineClient) := by
  constructor
  · unfold isShadowAircraft StrMap.valueD
    cases hf : StrMap.find? clientCallsignAndPosMap simAircraft.registration with
    | none => simp [Pos.invalid, Pos.isValid]
    | some p => cases hv : p.valid <;> simp [Pos.isValid, hv]
  · subst hrec
    unfold getShadowAircraft
    split_ifs <;> rfl

def simShadow : SimAircraft := ⟨"DLH123", posSim, true⟩

/-- Witness for C8: shadow-flagged aircraft with no backing client
record. -/
theorem shadow_resolution_characterization_witness :
    (isShadowAircraft distBoundary [] simShadow = true ↔
      (simShadow.onlineShadow = true ∨
        ∃ p, StrMap.find? ([] : StrMap Pos) simShadow.registration = some p ∧
          p.valid = true ∧ distBoundary p simShadow.pos <
            (MIN_DISTANCE_DUPLICATE_M : Rat))) ∧
    getShadowAircraft distBoundary [] [] simShadow simShadow = (false, simShadow) :=
  shadow_resolution_characterization distBoundary [] [] simShadow simShadow rfl

/-- C9 is false on the code for negative diameters other than `-1`: a
configured diameter of `-2` is below zero, yet the produced entry is the
clamped radius `1`, not the use-default sentinel `-1` (the code tests
`diameter != -1`, not `diameter < 0`). -/
theorem atc_size_negative_diameter_counterexample :
    facilityDiameter ⟨-2, 10, 10, 10, 10, 10, 10, 10⟩ FacilityType.OBSERVER < 0 ∧
    (FacilityType.OBSERVER, 1) ∈ updateAtcSizes ⟨-2, 10, 10, 10, 10, 10, 10, 10⟩ ∧
    ¬ (FacilityType.OBSERVER, -1) ∈ updateAtcSizes ⟨-2, 10, 10, 10, 10, 10, 10, 10⟩ := by
  decide

/-- C9 (amended): `updateAtcSizes` produces an entry for every facility
type; a configured diameter equal to the sentinel `-1` yields the
use-default value `-1`, and every other diameter — including other
negative values — yields the radius `max 1 (diameter / 2)` (C++ truncating
division). -/
theorem updateAtcSizes_characterization (od : DisplayOptions) (t : FacilityType) :
    ∃ r, (t, r) ∈ updateAtcSizes od ∧
      ((facilityDiameter od t = -1 ∧ r = -1) ∨
       (facilityDiameter od t ≠ -1 ∧ r = max 1 (Int.tdiv (facilityDiameter od t) 2))) := by
  refine ⟨if facilityDiameter od t ≠ -1 then max 1 (Int.tdiv (facilityDiameter od t) 2)
    else -1, ?_, ?_⟩
  · cases t <;> simp [updateAtcSizes, allFacilityTypes, facilityDiameter]
  · by_cases h : facilityDiameter od t = -1 <;> simp [h]

/-- C10: in `filterOnlineShadowAircraft` an online aircraft is removed
only if its registration is non-empty, belongs to a shadow-flagged
simulator aircraft, is present in the registrations stored at the last
cache fill, and the two positions are within (boundary inclusive)
`MIN_DISTANCE_DUPLICATE_M`; an online aircraft with an empty registration,
or whose registration is absent from `simulatorAiRegistrations`, is never
removed. -/
theorem filter_shadow_removal_characterization (dist : Pos → Pos → Rat)
    (onlineAircraft simAircraft : List SimAircraft)
    (simulatorAiRegistrations : StrMap Pos) (a : SimAircraft)
    (hmem : a ∈ onlineAircraft) :
    (a ∉ filterOnlineShadowAircraft dist onlineAircraft simAircraft
        simulatorAiRegistrations →
      a.registration ≠ "" ∧
      StrMap.contains simulatorAiRegistrations a.registration = true ∧
      ∃ ac, ac ∈ simAircraft ∧ ac.onlineShadow = true ∧
        ac.registration = a.registration ∧
        dist a.pos ac.pos ≤ (MIN_DISTANCE_DUPLICATE_M : Rat)) ∧
    (a.registration = "" →
      a ∈ filterOnlineShadowAircraft dist onlineAircraft simAircraft
        simulatorAiRegistrations) ∧
    (StrMap.contains simulatorAiRegistrations a.registration = false →
      a ∈ filterOnlineShadowAircraft dist onlineAircraft simAircraft
        simulatorAiRegistrations) := by
  have hcollect : ∀ r p,
      StrMap.find? (collectShadowRegistrations simAircraft simulatorAiRegistrations) r =
        some p →
      ∃ ac, ac ∈ simAircraft ∧ ac.onlineShadow = true ∧ ¬(ac.registration = "") ∧
        StrMap.contains simulatorAiRegistrations ac.registration = true ∧
        ac.registration = r ∧ ac.pos = p := by
    intro r p h
    rcases find?_foldl_shadowRegStep simAircraft simulatorAiRegistrations StrMap.empty r p h
      with h' | h'
    · exact absurd h' (by simp [StrMap.find?, StrMap.empty])
    · exact h'
  refine ⟨?_, ?_, ?_⟩
  · intro hrem
    have hp : (!(StrMap.contains
        (collectShadowRegistrations simAircraft simulatorAiRegistrations) a.registration &&
        decide (dist a.pos (StrMap.valueD
          (collectShadowRegistrations simAircraft simulatorAiRegistrations) a.registration
          Pos.invalid) ≤ (MIN_DISTANCE_DUPLICATE_M : Rat)))) = false := by
      by_contra hb
      exact hrem (List.mem_filter.mpr ⟨hmem, eq_true_of_ne_false hb⟩)
    simp only [Bool.not_eq_false', Bool.and_eq_true, decide_eq_true_eq] at hp
    obtain ⟨hc, hd⟩ := hp
    rw [StrMap.contains_eq_isSome_find?, Option.isSome_iff_exists] at hc
    obtain ⟨p, hfp⟩ := hc
    obtain ⟨ac, hacmem, hshadow, hne, hcontains, hreg, hpos⟩ :=
      hcollect a.registration p hfp
    refine ⟨by rw [← hreg]; exact hne, by rw [← hreg]; exact hcontains,
      ac, hacmem, hshadow, hreg, ?_⟩
    rw [hpos]
    rw [StrMap.valueD, hfp] at hd
    exact hd
  · intro hempty
    apply List.mem_filter.mpr
    refine ⟨hmem, ?_⟩
    have hcf : StrMap.contains
        (collectShadowRegistrations simAircraft simulatorAiRegistrations)
        a.registration = false := by
      by_contra hb
      rw [Bool.not_eq_false, StrMap.contains_eq_isSome_find?,
        Option.isSome_iff_exists] at hb
      obtain ⟨p, hfp⟩ := hb
      obtain ⟨ac, _, _, hne, _, hreg, _⟩ := hcollect a.registration p hfp
      exact hne (hreg.trans hempty)
    simp [filterOnlineShadowAircraft] at hmem ⊢
    simp [hcf]
  · intro habsent
    apply List.mem_filter.mpr
    refine ⟨hmem, ?_⟩
    have hcf : StrMap.contains
        (collectShadowRegistrations simAircraft simulatorAiRegistrations)
        a.registration = false := by
      by_contra hb
      rw [Bool.not_eq_false, StrMap.contains_eq_isSome_find?,
        Option.isSome_iff_exists] at hb
      obtain ⟨p, hfp⟩ := hb
      obtain ⟨ac, _, _, _, hcontains, hreg, _⟩ := hcollect a.registration p hfp
      rw [hreg, habsent] at hcontains
      exact absurd hcontains (by simp)
    simp [hcf]

def aShadowSim : SimAircraft := ⟨"DEABC", posSim, true⟩

/-- Witness for C10 at a concrete online aircraft. -/
theorem filter_shadow_removal_characterization_witness :
    (aOnlineX ∉ filterOnlineShadowAircraft distBoundary [aOnlineX] [aShadowSim]
        [("DEABC", posSim)] →
      aOnlineX.registration ≠ "" ∧
      StrMap.contains [("DEABC", posSim)] aOnlineX.registration = true ∧
      ∃ ac, ac ∈ [aShadowSim] ∧ ac.onlineShadow = true ∧
        ac.registration = aOnlineX.registration ∧
        distBoundary aOnlineX.pos ac.pos ≤ (MIN_DISTANCE_DUPLICATE_M : Rat)) ∧
    (aOnlineX.registration = "" →
      aOnlineX ∈ filterOnlineShadowAircraft distBoundary [aOnlineX] [aShadowSim]
        [("DEABC", posSim)]) ∧
    (StrMap.contains [("DEABC", posSim)] aOnlineX.registration = false →
      aOnlineX ∈ filterOnlineShadowAircraft distBoundary [aOnlineX] [aShadowSim]
        [("DEABC", posSim)]) :=
  filter_shadow_removal_characterization distBoundary [aOnlineX] [aShadowSim]
    [("DEABC", posSim)] aOnlineX (by decide)

end Onlinedata
